import Mathlib

/-!
Shallow embedding of the weather WebSocket Lambda
(`src/websocket.js`, `src/index.js`, `src/weatherAPI.js`, `src/dataProcessor.js`).

The DynamoDB connection registry is modelled as a list of records keyed by
`connectionId` (the registry schema's primary key).  The push transport and
the SQL database are modelled as oracle functions supplied in the
environment.  Fallible JavaScript code (functions that can `throw`) is
modelled with `Except`; swallowed exceptions follow the `try`/`catch`
structure of the source.
-/

namespace WeatherWs

/-- JavaScript truthiness for an optional string (`undefined` and `""` are falsy). -/
def jsTruthyStr : Option String → Bool
  | none => false
  | some s => s ≠ ""

/-! ## Registry data model (`src/websocket.js`) -/

/-- The `locationIds` attribute: the code stores a list (on connect), a bare
string (on subscribe) or `null` (on unsubscribe). -/
inductive LocVal
  | list (xs : List String)
  | str (s : String)
  | null
deriving DecidableEq, Repr

/-- One DynamoDB item of the connections table.  Every attribute other than
the key is optional, as in DynamoDB. -/
structure ConnRecord where
  connectionId : String
  userId : Option String := none
  timestamp : Option Nat := none
  ttl : Option Nat := none
  locationIds : Option LocVal := none
  status : Option String := none
  serviceType : Option String := none
deriving DecidableEq, Repr

abbrev Registry := List ConnRecord

/-- `CONFIG.CONNECTION_TTL_HOURS` from `src/config.js`. -/
def CONNECTION_TTL_HOURS : Nat := 24

/-- `calculateTTL`: `Math.floor(Date.now() / 1000) + CONNECTION_TTL_HOURS * 60 * 60`. -/
def calculateTTL (nowMs : Nat) : Nat :=
  nowMs / 1000 + CONNECTION_TTL_HOURS * 60 * 60

/-- Whether the table holds an item whose key is `cid`. -/
def containsConn (tbl : Registry) (cid : String) : Bool :=
  tbl.any (fun r => r.connectionId == cid)

/-- Number of items in the table with key `cid`. -/
def countConn (tbl : Registry) (cid : String) : Nat :=
  (tbl.filter (fun r => r.connectionId == cid)).length

/-- DynamoDB errors surfaced to the registry client. -/
inductive DynErr
  | conditionalCheckFailed
  | internalError
deriving DecidableEq, Repr

/-- The item written by `storeConnection`: `connectionId`, `userId`,
`timestamp`, `ttl`, `locationIds: []`, `status: 'CONNECTED'` — and no
`serviceType` attribute. -/
def connectionItem (nowMs : Nat) (cid uid : String) : ConnRecord :=
  { connectionId := cid
    userId := some uid
    timestamp := some nowMs
    ttl := some (calculateTTL nowMs)
    locationIds := some (LocVal.list [])
    status := some "CONNECTED"
    serviceType := none }

/-- `PutCommand` with `ConditionExpression: 'attribute_not_exists(connectionId)'`:
fails with a conditional-check error when an item with the same key exists. -/
def putItemConditional (tbl : Registry) (item : ConnRecord) : Except DynErr Registry :=
  if containsConn tbl item.connectionId then
    Except.error DynErr.conditionalCheckFailed
  else
    Except.ok (tbl ++ [item])

/-- `storeConnection`: conditional put; a `ConditionalCheckFailedException`
is logged as a warning and swallowed (no rethrow), any other error is
rethrown. -/
def storeConnection (nowMs : Nat) (tbl : Registry) (cid uid : String) :
    Except DynErr Registry :=
  match putItemConditional tbl (connectionItem nowMs cid uid) with
  | Except.ok t => Except.ok t
  | Except.error DynErr.conditionalCheckFailed => Except.ok tbl
  | Except.error e => Except.error e

/-- `removeConnection`: scan for the item with this `connectionId` and, when
found, delete it; deleting a non-existent record is not an error. -/
def removeConnection (tbl : Registry) (cid : String) : Registry :=
  if containsConn tbl cid then
    tbl.filter (fun r => !(r.connectionId == cid))
  else
    tbl

/-- `getActiveConnections`: scan with
`FilterExpression: 'serviceType = :type AND ttl > :now'` where `:type` is
`'weather-updates'`; a comparison with an absent attribute is false. -/
def getActiveConnections (nowS : Nat) (tbl : Registry) : List ConnRecord :=
  tbl.filter (fun r =>
    r.serviceType == some "weather-updates" &&
    (match r.ttl with
     | some t => nowS < t
     | none => false))

/-- `updateConnectionTTL`: `UpdateCommand` setting `ttl` and `status`
(an update on a missing key creates the item, as in DynamoDB). -/
def updateConnectionTTL (nowMs : Nat) (tbl : Registry) (cid uid : String) : Registry :=
  if containsConn tbl cid then
    tbl.map (fun r =>
      if r.connectionId == cid then
        { r with ttl := some (calculateTTL nowMs), status := some "CONNECTED" }
      else r)
  else
    tbl ++ [{ connectionId := cid
              userId := some uid
              ttl := some (calculateTTL nowMs)
              status := some "CONNECTED" }]

/-- `updateConnectionLocations`: `UpdateCommand` with
`SET locationIds = :locationIds, ttl, status` — the `locationIds` attribute
is replaced wholesale (an update on a missing key creates the item). -/
def updateConnectionLocations (nowMs : Nat) (tbl : Registry) (cid : String)
    (v : LocVal) : Registry :=
  if containsConn tbl cid then
    tbl.map (fun r =>
      if r.connectionId == cid then
        { r with locationIds := some v
                 ttl := some (calculateTTL nowMs)
                 status := some "CONNECTED" }
      else r)
  else
    tbl ++ [{ connectionId := cid
              locationIds := some v
              ttl := some (calculateTTL nowMs)
              status := some "CONNECTED" }]

/-- `cleanupUserConnections`: scan for all items with this `userId` and
delete each of them by key. -/
def cleanupUserConnections (tbl : Registry) (uid : String) : Registry :=
  tbl.filter (fun r => !(r.userId == some uid))

/-! ## Token verification (`verifyToken`) -/

/-- Abstract token values: a token either verifies to claims or fails in one
of the ways the code distinguishes. -/
inductive Token
  | valid (userId username : String)
  | expired
  | badSignature
  | missingFields
deriving DecidableEq, Repr

/-- Error cases of `verifyToken`, one per distinct thrown message. -/
inductive AuthErr
  | configError
  | noToken
  | tokenExpired
  | invalidSignature
  | verificationFailed
deriving DecidableEq, Repr

structure Claims where
  userId : String
  username : String
deriving DecidableEq, Repr

/-- `verifyToken`: missing secret and missing token fail first; then
`jwt.verify` outcomes are mapped (an expired token, a bad signature, or a
payload missing `userId`/`username` — the latter surfaces as the generic
verification failure after the internal rethrow). -/
def verifyToken (secret : Option String) (tok : Option Token) :
    Except AuthErr Claims :=
  match secret with
  | none => Except.error AuthErr.configError
  | some _ =>
    match tok with
    | none => Except.error AuthErr.noToken
    | some (Token.valid u n) => Except.ok ⟨u, n⟩
    | some Token.expired => Except.error AuthErr.tokenExpired
    | some Token.badSignature => Except.error AuthErr.invalidSignature
    | some Token.missingFields => Except.error AuthErr.verificationFailed

/-! ## Weather aggregator (`src/weatherAPI.js`, first — cited — revision) -/

/-- A location object as handed to the weather API layer.  Numeric values are
carried opaquely as integers; the code only moves them, never computes. -/
structure Loc where
  latitude : Option Int := none
  longitude : Option Int := none
  city_name : Option String := none
  country_code : Option String := none
  name : Option String := none
  location_id : Option String := none
deriving DecidableEq, Repr

/-- JavaScript truthiness for an optional number (0 is falsy). -/
def jsTruthyNum : Option Int → Bool
  | none => false
  | some v => v ≠ 0

/-- `getLocationQuery`: coordinates first (`"lat,lon"`), then
`"city_name, country_code"`, otherwise a thrown error. -/
def getLocationQuery (loc : Loc) : Except String String :=
  if jsTruthyNum loc.latitude && jsTruthyNum loc.longitude then
    let lat := loc.latitude.getD 0
    let lon := loc.longitude.getD 0
    Except.ok s!"{lat},{lon}"
  else if jsTruthyStr loc.city_name && jsTruthyStr loc.country_code then
    let c := loc.city_name.getD ""
    let cc := loc.country_code.getD ""
    Except.ok s!"{c}, {cc}"
  else
    Except.error "Location must have either coordinates or name"

/-- The fields of the provider's `current` object read by `formatWeatherData`. -/
structure ApiResp where
  temp_f : Int := 0
  condition_text : String := ""
  humidity : Int := 0
  wind_mph : Int := 0
  feelslike_c : Int := 0
  wind_dir : String := ""
  pressure_mb : Int := 0
  precip_mm : Int := 0
  cloud : Int := 0
  uv : Int := 0
deriving DecidableEq, Repr

/-- The object built by `formatWeatherData`. -/
structure Formatted where
  locationName : String
  locationId : Option String := none
  temperature : Int := 0
  condition : String := ""
  humidity : Int := 0
  windSpeed : Int := 0
  tstamp : String := ""
  feelsLike : Int := 0
  windDirection : String := ""
  pressure : Int := 0
  precipitation : Int := 0
  cloud : Int := 0
  uv : Int := 0
deriving DecidableEq, Repr

/-- `formatWeatherData`: requires a truthy `location.city_name` (the internal
throw is converted by its own catch into the invalid-format error). -/
def formatWeatherData (resp : ApiResp) (loc : Loc) (nowIso : String) :
    Except String Formatted :=
  if jsTruthyStr loc.city_name then
    Except.ok
      { locationName := loc.city_name.getD ""
        locationId := loc.location_id
        temperature := resp.temp_f
        condition := resp.condition_text
        humidity := resp.humidity
        windSpeed := resp.wind_mph
        tstamp := nowIso
        feelsLike := resp.feelslike_c
        windDirection := resp.wind_dir
        pressure := resp.pressure_mb
        precipitation := resp.precip_mm
        cloud := resp.cloud
        uv := resp.uv }
  else
    Except.error "Invalid weather data format received from API"

/-- Provider failure modes distinguished by `getWeatherForLocation`'s catch. -/
inductive PErr
  | timeout
  | status400
  | status401
  | status403
  | other
deriving DecidableEq, Repr

/-- `getWeatherForLocation`: one provider request for the location's query,
mapping failures to the specific thrown messages (an invalid location, whose
query throws, rethrows out of the logging in the catch when `location.name`
is falsy; a formatting failure is re-caught and reported as a fetch failure). -/
def getWeatherForLocation (provider : String → Except PErr ApiResp)
    (nowIso : String) (loc : Loc) : Except String Formatted :=
  match getLocationQuery loc with
  | Except.error e =>
    if jsTruthyStr loc.name then Except.error "Failed to fetch weather data"
    else Except.error e
  | Except.ok q =>
    match provider q with
    | Except.ok resp =>
      match formatWeatherData resp loc nowIso with
      | Except.ok f => Except.ok f
      | Except.error _ => Except.error "Failed to fetch weather data"
    | Except.error PErr.status400 =>
      let nm := loc.name.getD q
      Except.error s!"Invalid location: {nm}"
    | Except.error PErr.status401 => Except.error "Invalid API key"
    | Except.error PErr.status403 =>
      Except.error "API key has exceeded its rate limit"
    | Except.error _ => Except.error "Failed to fetch weather data"

/-- `getWeatherUpdates`: empty input short-circuits to `[]`; otherwise every
location is fetched and each per-location `.catch` rethrows
("Re-throw to prevent silent failures"), so `Promise.all` rejects as soon as
any single fetch fails. -/
def getWeatherUpdates (provider : String → Except PErr ApiResp)
    (nowIso : String) (locations : List Loc) : Except String (List Formatted) :=
  if locations.isEmpty then Except.ok []
  else locations.mapM (getWeatherForLocation provider nowIso)

/-! ## Weather cache (`getCachedWeather`) -/

/-- `CACHE_TTL = 5 * 60 * 1000` (milliseconds). -/
def CACHE_TTL : Nat := 5 * 60 * 1000

structure CacheEntry where
  data : Formatted
  timestamp : Nat
deriving DecidableEq, Repr

/-- The module-level `weatherCache` `Map`, keyed by the location query. -/
abbrev Cache := List (String × CacheEntry)

def cacheGet (c : Cache) (k : String) : Option CacheEntry :=
  match c with
  | [] => none
  | (k2, v) :: rest => if k2 == k then some v else cacheGet rest k

def cacheSet (c : Cache) (k : String) (v : CacheEntry) : Cache :=
  match c with
  | [] => [(k, v)]
  | (k2, v2) :: rest =>
    if k2 == k then (k, v) :: rest else (k2, v2) :: cacheSet rest k v

/-- One element of `getCachedWeather`'s result array: weather data (marked
`isStale` when an expired cache entry was used as fallback) or the
per-location error object. -/
inductive CResult
  | success (f : Formatted) (isStale : Bool)
  | failure (locationName err tstamp : String)
deriving DecidableEq, Repr

/-- `getCachedWeather`: for each location, serve the cache entry when it is
younger than `CACHE_TTL` (and `forceFresh` is unset); otherwise fetch fresh
and store it, falling back to the stale cached data (tagged `isStale`) when
the fetch fails and an entry exists, or to an error object when none does.
A location whose query cannot be computed throws out of the whole call (the
key is computed outside the `try`).  The third component counts provider
requests issued. -/
def getCachedWeather (provider : String → Except PErr ApiResp)
    (nowMs : Nat) (nowIso : String) (cache : Cache) (locations : List Loc)
    (forceFresh : Bool) : Except String (List CResult × Cache × Nat) :=
  match locations with
  | [] => Except.ok ([], cache, 0)
  | loc :: rest =>
    match getLocationQuery loc with
    | Except.error e => Except.error e
    | Except.ok cacheKey =>
      let cached := cacheGet cache cacheKey
      let step : CResult × Cache × Nat :=
        match cached with
        | some entry =>
          if !forceFresh && nowMs - entry.timestamp < CACHE_TTL then
            (CResult.success entry.data false, cache, 0)
          else
            match getWeatherForLocation provider nowIso loc with
            | Except.ok fresh =>
              (CResult.success fresh false, cacheSet cache cacheKey ⟨fresh, nowMs⟩, 1)
            | Except.error _ =>
              (CResult.success entry.data true, cache, 1)
        | none =>
          match getWeatherForLocation provider nowIso loc with
          | Except.ok fresh =>
            (CResult.success fresh false, cacheSet cache cacheKey ⟨fresh, nowMs⟩, 1)
          | Except.error err =>
            (CResult.failure (loc.name.getD cacheKey) err nowIso, cache, 1)
      match getCachedWeather provider nowMs nowIso step.2.1 rest forceFresh with
      | Except.error e => Except.error e
      | Except.ok (results, finalCache, calls) =>
        Except.ok (step.1 :: results, finalCache, step.2.2 + calls)

/-! ## Data processor (`src/dataProcessor.js`) -/

/-- JavaScript `a || b` on optional strings (empty string is falsy). -/
def jsOrStr (a b : Option String) : Option String :=
  if jsTruthyStr a then a else b

/-- The provider's `condition` object (`text`/`code`/`icon`), reached through
optional chaining. -/
structure Cond where
  text : Option String := none
  code : Option Int := none
  icon : Option String := none
deriving DecidableEq, Repr

/-- The `location.current` object of an API-shaped input row. -/
structure Current where
  temp_f : Option Int := none
  condition : Option Cond := none
  humidity : Option Int := none
  wind_mph : Option Int := none
  feelslike_f : Option Int := none
  last_updated : Option String := none
  is_day : Option Int := none
  wind_degree : Option Int := none
  wind_dir : Option String := none
  pressure_mb : Option Int := none
  pressure_in : Option Int := none
  precip_mm : Option Int := none
  precip_in : Option Int := none
  cloud : Option Int := none
  vis_km : Option Int := none
  vis_miles : Option Int := none
  uv : Option Int := none
  gust_mph : Option Int := none
  gust_kph : Option Int := none
deriving DecidableEq, Repr

/-- One element of `processWeatherData`'s input array: the union of the
fields the function probes (error-tagged entries, rows from the DB weather
cache, raw API responses). -/
structure Row where
  error : Option String := none
  locationId : Option String := none
  locationName : Option String := none
  tstamp : Option String := none
  id : Option String := none
  location_id : Option String := none
  name : Option String := none
  temperature : Option Int := none
  condition : Option String := none
  humidity : Option Int := none
  wind_speed : Option Int := none
  feels_like : Option Int := none
  last_updated : Option String := none
  is_day : Option Int := none
  condition_code : Option Int := none
  condition_icon : Option String := none
  wind_degree : Option Int := none
  wind_dir : Option String := none
  pressure_mb : Option Int := none
  pressure_in : Option Int := none
  precip_mm : Option Int := none
  precip_in : Option Int := none
  cloud : Option Int := none
  vis_km : Option Int := none
  vis_miles : Option Int := none
  uv : Option Int := none
  gust_mph : Option Int := none
  gust_kph : Option Int := none
  current : Option Current := none
  latitude : Option Int := none
  longitude : Option Int := none
  region : Option String := none
  country : Option String := none
  country_code : Option String := none
  timezone : Option String := none
  localtime : Option String := none
deriving DecidableEq, Repr

/-- The `weather` object assembled by `processWeatherData`. -/
structure Wfields where
  temp_f : Option Int := none
  condition_text : Option String := none
  humidity : Option Int := none
  wind_mph : Option Int := none
  feelslike_f : Option Int := none
  last_updated : Option String := none
  is_day : Option Int := none
  condition_code : Option Int := none
  condition_icon : Option String := none
  wind_degree : Option Int := none
  wind_dir : Option String := none
  pressure_mb : Option Int := none
  pressure_in : Option Int := none
  precip_mm : Option Int := none
  precip_in : Option Int := none
  cloud : Option Int := none
  vis_km : Option Int := none
  vis_miles : Option Int := none
  uv : Option Int := none
  gust_mph : Option Int := none
  gust_kph : Option Int := none
deriving DecidableEq, Repr

/-- The `metadata` object assembled by `processWeatherData`. -/
structure Meta where
  region : Option String := none
  country : Option String := none
  country_code : Option String := none
  timezone : Option String := none
  localTime : Option String := none
deriving DecidableEq, Repr

/-- One element of `processWeatherData`'s output array. -/
structure WOut where
  id : Option String := none
  name : Option String := none
  error : Option String := none
  tstamp : Option String := none
  weather : Option Wfields := none
  coordinates : Option (Option Int × Option Int) := none
  metadata : Option Meta := none
deriving DecidableEq, Repr

/-- The body of `processWeatherData`'s `map` callback: pass an error entry
through; map a DB-cache row (discriminated by `temperature !== undefined`);
map an API row (discriminated by a present `current` object); otherwise the
internal throw is caught and turned into a per-item error entry. -/
def processRow (nowIso : String) (location : Row) : WOut :=
  if jsTruthyStr location.error then
    { id := location.locationId
      name := location.locationName
      error := location.error
      tstamp := location.tstamp }
  else if location.temperature.isSome then
    { id := location.location_id
      name := location.name
      weather := some
        { temp_f := location.temperature
          condition_text := location.condition
          humidity := location.humidity
          wind_mph := location.wind_speed
          feelslike_f := location.feels_like
          last_updated := location.last_updated
          is_day := location.is_day
          condition_code := location.condition_code
          condition_icon := location.condition_icon
          wind_degree := location.wind_degree
          wind_dir := location.wind_dir
          pressure_mb := location.pressure_mb
          pressure_in := location.pressure_in
          precip_mm := location.precip_mm
          precip_in := location.precip_in
          cloud := location.cloud
          vis_km := location.vis_km
          vis_miles := location.vis_miles
          uv := location.uv
          gust_mph := location.gust_mph
          gust_kph := location.gust_kph }
      coordinates := some (location.latitude, location.longitude)
      metadata := some
        { region := location.region
          country := location.country
          country_code := location.country_code
          timezone := location.timezone } }
  else
    match location.current with
    | some cur =>
      { id := jsOrStr location.id location.locationId
        name := jsOrStr location.name location.locationName
        weather := some
          { temp_f := cur.temp_f
            condition_text := (cur.condition.map Cond.text).join
            humidity := cur.humidity
            wind_mph := cur.wind_mph
            feelslike_f := cur.feelslike_f
            last_updated := cur.last_updated
            is_day := cur.is_day
            condition_code := (cur.condition.map Cond.code).join
            condition_icon := (cur.condition.map Cond.icon).join
            wind_degree := cur.wind_degree
            wind_dir := cur.wind_dir
            pressure_mb := cur.pressure_mb
            pressure_in := cur.pressure_in
            precip_mm := cur.precip_mm
            precip_in := cur.precip_in
            cloud := cur.cloud
            vis_km := cur.vis_km
            vis_miles := cur.vis_miles
            uv := cur.uv
            gust_mph := cur.gust_mph
            gust_kph := cur.gust_kph }
        coordinates :=
          if jsTruthyNum location.latitude && jsTruthyNum location.longitude then
            some (location.latitude, location.longitude)
          else none
        metadata := some
          { region := location.region
            country := location.country
            country_code := location.country_code
            timezone := location.timezone
            localTime := location.localtime } }
    | none =>
      { id := location.locationId
        name := location.locationName
        error := some "Failed to process weather data"
        tstamp := some nowIso }

/-- `processWeatherData` on an array input (the non-array throw is excluded
by the Lean type): a per-item map; the per-item `try`/`catch` means the map
itself never throws. -/
def processWeatherData (nowIso : String) (weatherData : List Row) : List WOut :=
  weatherData.map (processRow nowIso)

/-- Discriminates the input rows that `processWeatherData` turns into
error-tagged outputs: already error-tagged entries, and rows carrying
neither DB-cache data nor an API `current` object. -/
def rowFails (r : Row) : Bool :=
  jsTruthyStr r.error || (!r.temperature.isSome && !r.current.isSome)

/-! ## Push transport and `sendMessageToClient` (`src/websocket.js`) -/

/-- Outcome reported by the API Gateway transport for a post to one
connection: delivered, endpoint permanently gone (HTTP 410), or some other
failure (thrown to the caller). -/
inductive PushOut
  | delivered
  | gone
  | fail
deriving DecidableEq, Repr

/-- Outbound push envelopes built by the handler: `weatherUpdate` with the
processed data, the `noLocations` notice, and `error` messages. -/
inductive Payload
  | weatherUpdate (data : List WOut)
  | noLocations
  | errorMsg (message : String)
deriving DecidableEq, Repr

/-- `sendMessageToClient`: post to the connection; a 410 response triggers
`removeConnection` and returns `false` (the stale outcome); any other
transport failure is rethrown. -/
def sendMessageToClient (push : String → PushOut) (tbl : Registry)
    (cid : String) (_payload : Payload) : Except Unit (Bool × Registry) :=
  match push cid with
  | PushOut.delivered => Except.ok (true, tbl)
  | PushOut.gone => Except.ok (false, removeConnection tbl cid)
  | PushOut.fail => Except.error ()

/-! ## Route dispatcher (`src/index.js` handler) -/

/-- Execution environment of one Lambda invocation: the JWT secret, the SQL
database (`getLocationsForUser`) as an oracle from `userId` to location
rows, the push transport behaviour per connection, and the clock. -/
structure Env where
  jwtSecret : Option String
  db : String → List Row
  push : String → PushOut
  nowMs : Nat
  nowIso : String

/-- A parsed message body: the fields the handler reads. -/
structure Msg where
  token : Option Token := none
  action : Option String := none
  locationId : Option String := none
  locations : Option (List String) := none
deriving DecidableEq, Repr

/-- A raw `event.body`: either unparseable text (on which `JSON.parse`
throws) or a parsed message. -/
inductive BodyV
  | malformed
  | msg (m : Msg)
deriving DecidableEq, Repr

/-- `JSON.parse(event.body)`: throws on a missing body (`undefined` is not
valid JSON) and on malformed text. -/
def parseBody : Option BodyV → Except Unit Msg
  | some (BodyV.msg m) => Except.ok m
  | _ => Except.error ()

/-- An inbound WebSocket event as seen by the handler. -/
structure Event where
  routeKey : String
  connectionId : String
  queryToken : Option Token := none
  queryUserId : Option String := none
  body : Option BodyV := none

/-- The synchronous response together with the final registry state. -/
structure HandlerResult where
  statusCode : Nat
  message : String
  registry : Registry
deriving DecidableEq, Repr

/-- The `$connect` case: missing `token` or `userId` query parameter is
rejected up front; then the surrounding `try` turns every failure
(verification, store, push) into a 401 via its `catch`; the provided
`userId` must equal the token's `userId` or its `username`. -/
def connectRoute (env : Env) (tbl : Registry) (cid : String)
    (tok : Option Token) (providedUserId : Option String) :
    Nat × String × Registry :=
  if !(tok.isSome && jsTruthyStr providedUserId) then
    (401, "Authorization token and userId required", tbl)
  else
    match verifyToken env.jwtSecret tok with
    | Except.error _ => (401, "Invalid token", tbl)
    | Except.ok claims =>
      let provided := providedUserId.getD ""
      if !(claims.userId == provided || claims.username == provided) then
        (401, "Invalid user identification", tbl)
      else
        match storeConnection env.nowMs tbl cid claims.userId with
        | Except.error _ => (401, "Invalid token", tbl)
        | Except.ok t1 =>
          let locations := env.db claims.userId
          if locations.length > 0 then
            match sendMessageToClient env.push t1 cid
                (Payload.weatherUpdate (processWeatherData env.nowIso locations)) with
            | Except.ok (_, t2) => (200, "Connected successfully", t2)
            | Except.error _ => (401, "Invalid token", t1)
          else
            match sendMessageToClient env.push t1 cid Payload.noLocations with
            | Except.ok (_, t2) => (200, "Connected successfully", t2)
            | Except.error _ => (401, "Invalid token", t1)

/-- The `catch` of the `getWeather` case: best-effort error push (its own
failure is swallowed), then a 500 response. -/
def getWeatherCatch (env : Env) (tbl : Registry) (cid : String) :
    Nat × String × Registry :=
  match sendMessageToClient env.push tbl cid (Payload.errorMsg "error") with
  | Except.ok (_, t2) => (500, "Failed to retrieve weather data", t2)
  | Except.error _ => (500, "Failed to retrieve weather data", tbl)

/-- The `getWeather` case: the body is parsed before the `try` (a parse
failure propagates to the top-level catch); a missing token yields an error
push and 401; then TTL refresh, location retrieval with optional filtering,
processing and the `weatherUpdate` push; any failure inside the `try` lands
in `getWeatherCatch`. -/
def getWeatherRoute (env : Env) (tbl : Registry) (cid : String)
    (body : Option BodyV) : Except Registry (Nat × String × Registry) :=
  match parseBody body with
  | Except.error _ => Except.error tbl
  | Except.ok m =>
    match m.token with
    | none =>
      match sendMessageToClient env.push tbl cid
          (Payload.errorMsg "Authentication required. Please reconnect.") with
      | Except.ok (_, t1) => Except.ok (401, "Authentication token is required", t1)
      | Except.error _ => Except.ok (getWeatherCatch env tbl cid)
    | some _ =>
      match verifyToken env.jwtSecret m.token with
      | Except.error _ => Except.ok (getWeatherCatch env tbl cid)
      | Except.ok claims =>
        let t1 := updateConnectionTTL env.nowMs tbl cid claims.userId
        let userLocations := env.db claims.userId
        let reqIds := m.locations.getD []
        let filtered :=
          if reqIds.length > 0 then
            userLocations.filter (fun r =>
              match r.location_id with
              | some s => reqIds.contains s
              | none => false)
          else userLocations
        match sendMessageToClient env.push t1 cid
            (Payload.weatherUpdate (processWeatherData env.nowIso filtered)) with
        | Except.ok (_, t2) => Except.ok (200, "Weather data sent successfully", t2)
        | Except.error _ => Except.ok (getWeatherCatch env t1 cid)

/-- The `locationUpdate` case: no local `catch`, so any failure propagates
to the top-level catch. -/
def locationUpdateRoute (env : Env) (tbl : Registry) (cid : String)
    (body : Option BodyV) : Except Registry (Nat × String × Registry) :=
  match parseBody body with
  | Except.error _ => Except.error tbl
  | Except.ok m =>
    match verifyToken env.jwtSecret m.token with
    | Except.error _ => Except.error tbl
    | Except.ok claims =>
      match sendMessageToClient env.push tbl cid
          (Payload.weatherUpdate
            (processWeatherData env.nowIso (env.db claims.userId))) with
      | Except.ok (_, t1) => Except.ok (200, "Location update sent", t1)
      | Except.error _ => Except.error tbl

/-- The `$default` case: parse and verify inside a `try` whose `catch`
rethrows, so parse and verification failures propagate to the top-level
catch; then the `action` switch (`subscribe` replaces the connection's
`locationIds` with the bare `locationId` string, `unsubscribe` stores
`null`, `logout` cascades over the user's connections, anything else is a
400). -/
def defaultRoute (env : Env) (tbl : Registry) (cid : String)
    (body : Option BodyV) : Except Registry (Nat × String × Registry) :=
  match parseBody body with
  | Except.error _ => Except.error tbl
  | Except.ok m =>
    match verifyToken env.jwtSecret m.token with
    | Except.error _ => Except.error tbl
    | Except.ok claims =>
      match m.action with
      | some "subscribe" =>
        if !jsTruthyStr m.locationId then
          Except.ok (400, "Location ID is required for subscription", tbl)
        else
          let t1 := updateConnectionLocations env.nowMs tbl cid
            (LocVal.str (m.locationId.getD ""))
          match sendMessageToClient env.push t1 cid
              (Payload.weatherUpdate
                (processWeatherData env.nowIso (env.db claims.userId))) with
          | Except.ok (_, t2) => Except.ok (200, "Subscribed successfully", t2)
          | Except.error _ => Except.error t1
      | some "unsubscribe" =>
        Except.ok (200, "Unsubscribed successfully",
          updateConnectionLocations env.nowMs tbl cid LocVal.null)
      | some "logout" =>
        Except.ok (200, "Logout successful", cleanupUserConnections tbl claims.userId)
      | _ => Except.ok (400, "Unknown action", tbl)

/-- The route switch of the handler. -/
def handlerCore (env : Env) (tbl : Registry) (e : Event) :
    Except Registry (Nat × String × Registry) :=
  match e.routeKey with
  | "$connect" =>
    Except.ok (connectRoute env tbl e.connectionId e.queryToken e.queryUserId)
  | "$disconnect" =>
    Except.ok (200, "Disconnected successfully", removeConnection tbl e.connectionId)
  | "getWeather" => getWeatherRoute env tbl e.connectionId e.body
  | "locationUpdate" => locationUpdateRoute env tbl e.connectionId e.body
  | "$default" => defaultRoute env tbl e.connectionId e.body
  | _ => Except.ok (400, "Unknown route", tbl)

/-- The full handler: the top-level `catch` attempts a best-effort error
push (swallowing its failure) and answers 500. -/
def handler (env : Env) (tbl : Registry) (e : Event) : HandlerResult :=
  match handlerCore env tbl e with
  | Except.ok (sc, msg, t) => ⟨sc, msg, t⟩
  | Except.error t =>
    match sendMessageToClient env.push t e.connectionId
        (Payload.errorMsg "An unexpected error occurred") with
    | Except.ok (_, t2) => ⟨500, "Internal server error", t2⟩
    | Except.error _ => ⟨500, "Internal server error", t⟩

/-! ## Store retry configuration and spec-modelled retry middleware -/

/-- The configuration handed to the DynamoDB client in `src/websocket.js`
(`maxAttempts: 3`, `requestTimeout: 5000`). -/
structure ClientConfig where
  maxAttempts : Nat
  requestTimeout : Nat
deriving DecidableEq, Repr

/-- The DynamoDB client configuration from `src/websocket.js`. -/
def dynamoClientConfig : ClientConfig := { maxAttempts := 3, requestTimeout := 5000 }

/-- Modelled from the spec: the bounded-retry middleware of the store client
library is not part of this repository's sources — `src/websocket.js` only
configures it through `dynamoClientConfig`.  Following the spec's words
("bounded retry (default 3 attempts, exponential backoff starting at 100ms,
doubling)"): `op i` says whether the i-th attempt (1-based) succeeds;
`retryExec op made remaining` performs up to `remaining` further attempts
and returns the total number of attempts performed, the list of backoff
delays slept between attempts (in ms), and whether some attempt succeeded. -/
def retryExec (op : Nat → Bool) : Nat → Nat → Nat × List Nat × Bool
  | made, 0 => (made, [], false)
  | made, 1 => if op (made + 1) then (made + 1, [], true) else (made + 1, [], false)
  | made, r + 2 =>
    if op (made + 1) then (made + 1, [], true)
    else
      let rest := retryExec op (made + 1) (r + 1)
      (rest.1, 100 * 2 ^ made :: rest.2.1, rest.2.2)

/-- Modelled from the spec: one store operation run under the retry
middleware with the given `maxAttempts`. -/
def retryOp (op : Nat → Bool) (maxAttempts : Nat) : Nat × List Nat × Bool :=
  retryExec op 0 maxAttempts

/-! ## Concrete exemplar inputs for counterexamples and witnesses -/

/-- A baseline environment: secret available, no saved locations, transport
delivers everywhere. -/
def env0 : Env :=
  { jwtSecret := some "s"
    db := fun _ => []
    push := fun _ => PushOut.delivered
    nowMs := 0
    nowIso := "t0" }

/-- A transport reporting every endpoint as gone (HTTP 410). -/
def pushGone : String → PushOut := fun _ => PushOut.gone

/-- A registry with the single connection "c1" of user "42". -/
def tbl1 : Registry := [connectionItem 0 "c1" "42"]

def locA : Loc := { city_name := some "Alpha", country_code := some "AA", location_id := some "1" }
def locB : Loc := { city_name := some "Beta", country_code := some "BB", location_id := some "2" }
def locC : Loc := { city_name := some "Gamma", country_code := some "CC", location_id := some "3" }

/-- A provider failing exactly for `locB`'s query and succeeding elsewhere. -/
def exProvider : String → Except PErr ApiResp := fun q =>
  if q == "Beta, BB" then Except.error PErr.timeout else Except.ok {}

/-- A provider failing for every query. -/
def pFail : String → Except PErr ApiResp := fun _ => Except.error PErr.timeout

/-- A cached snapshot for `locB`, written at time 0. -/
def fmtB : Formatted := { locationName := "Beta", locationId := some "2" }

def cacheB : Cache := [("Beta, BB", ⟨fmtB, 0⟩)]

/-- An operation that fails on every attempt. -/
def alwaysFail : Nat → Bool := fun _ => false

/-- A connection record with prior subscriptions, to exercise replacement. -/
def recOld : ConnRecord :=
  { connectionId := "c1"
    userId := some "42"
    ttl := some 7
    locationIds := some (LocVal.list ["old-1", "old-2"])
    status := some "CONNECTED" }

/-- A subscribe message for location "loc-7" with a valid token. -/
def mSub : Msg :=
  { token := some (Token.valid "42" "user42")
    action := some "subscribe"
    locationId := some "loc-7" }

/-- Reading the stored `locationIds` attribute as a subscription set. -/
def subsOf : LocVal → List String
  | LocVal.list xs => xs
  | LocVal.str s => [s]
  | LocVal.null => []

/-- A processable DB-cache row for location "Alpha". -/
def rowOkA : Row := { location_id := some "1", name := some "Alpha", temperature := some 70 }

/-- An error-tagged input row for location "Beta". -/
def rowErrB : Row :=
  { error := some "Failed to fetch weather data"
    locationId := some "2"
    locationName := some "Beta"
    tstamp := some "t0" }

/-- A processable DB-cache row for location "Gamma". -/
def rowOkC : Row := { location_id := some "3", name := some "Gamma", temperature := some 65 }

/-- A batch in which exactly the middle entry is error-tagged. -/
def rowsEx : List Row := [rowOkA, rowErrB, rowOkC]

/-! ## Shared lemmas -/

theorem containsConn_removeConnection (tbl : Registry) (cid : String) :
    containsConn (removeConnection tbl cid) cid = false := by
  cases h : containsConn tbl cid with
  | false => simp [removeConnection, h]
  | true =>
    simp only [removeConnection, h, if_true]
    simp [containsConn, List.any_eq_true, List.mem_filter]

theorem filter_eq_nil_of_not_contains (tbl : Registry) (cid : String)
    (h : containsConn tbl cid = false) :
    tbl.filter (fun r => r.connectionId == cid) = [] := by
  rw [List.filter_eq_nil_iff]
  intro r hr
  intro hbeq
  have : containsConn tbl cid = true := by
    simp [containsConn, List.any_eq_true]
    exact ⟨r, hr, by simpa using hbeq⟩
  simp [this] at h

theorem containsConn_append_item (tbl : Registry) (nowMs : Nat) (cid uid : String) :
    containsConn (tbl ++ [connectionItem nowMs cid uid]) cid = true := by
  simp [containsConn, connectionItem]

/-- After a retry run with `remaining` attempts left, at most `made +
remaining` attempts have been performed in total. -/
theorem retryExec_fst_le (g : Nat → Bool) :
    ∀ rem made, (retryExec g made rem).1 ≤ made + rem
  | 0, made => by simp [retryExec]
  | 1, made => by
    simp only [retryExec]
    split <;> omega
  | r + 2, made => by
    simp only [retryExec]
    split
    · omega
    · have ih := retryExec_fst_le g (r + 1) (made + 1)
      simpa using Nat.le_trans ih (by omega)

/-! ## Claim C2 -/

/-- C2: for every connection and payload, when the transport reports the
endpoint permanently gone (HTTP 410), `sendMessageToClient` removes the
connection's record from the registry before returning, returns the
non-exceptional stale outcome (`false`), and does not propagate any
exception for that condition. -/
theorem C2_stale_self_heal (push : String → PushOut) (tbl : Registry)
    (cid : String) (payload : Payload) (h : push cid = PushOut.gone) :
    sendMessageToClient push tbl cid payload =
      Except.ok (false, removeConnection tbl cid) ∧
    containsConn (removeConnection tbl cid) cid = false :=
  ⟨by simp [sendMessageToClient, h], containsConn_removeConnection tbl cid⟩

theorem C2_stale_self_heal_witness :
    sendMessageToClient pushGone tbl1 "c1" Payload.noLocations =
      Except.ok (false, removeConnection tbl1 "c1") ∧
    containsConn (removeConnection tbl1 "c1") "c1" = false :=
  C2_stale_self_heal pushGone tbl1 "c1" Payload.noLocations rfl

/-! ## Claim C4 -/

/-- C4: connection creation is idempotent.  When `cid` is absent, the first
`storeConnection` inserts exactly one record; a second call with the same
`connectionId` returns normally (the conditional-check failure is swallowed,
not raised) and leaves the registry — in particular the first record's
`userId` and `ttl` — unchanged. -/
theorem C4_idempotent_create (nowMs nowMs2 : Nat) (tbl : Registry)
    (cid uid uid2 : String) (h : containsConn tbl cid = false) :
    storeConnection nowMs tbl cid uid =
      Except.ok (tbl ++ [connectionItem nowMs cid uid]) ∧
    storeConnection nowMs2 (tbl ++ [connectionItem nowMs cid uid]) cid uid2 =
      Except.ok (tbl ++ [connectionItem nowMs cid uid]) ∧
    countConn (tbl ++ [connectionItem nowMs cid uid]) cid = 1 ∧
    (connectionItem nowMs cid uid).userId = some uid ∧
    (connectionItem nowMs cid uid).ttl = some (calculateTTL nowMs) := by
  refine ⟨?_, ?_, ?_, rfl, rfl⟩
  · simp [storeConnection, putItemConditional, connectionItem, h]
  · have hin := containsConn_append_item tbl nowMs cid uid
    simp [storeConnection, putItemConditional, connectionItem] at hin ⊢
    simp [hin]
  · have hnil := filter_eq_nil_of_not_contains tbl cid h
    simp [countConn, List.filter_append, hnil, connectionItem]

theorem C4_idempotent_create_witness :
    storeConnection 5 [] "c1" "42" =
      Except.ok ([] ++ [connectionItem 5 "c1" "42"]) ∧
    storeConnection 9 ([] ++ [connectionItem 5 "c1" "42"]) "c1" "43" =
      Except.ok ([] ++ [connectionItem 5 "c1" "42"]) ∧
    countConn ([] ++ [connectionItem 5 "c1" "42"]) "c1" = 1 ∧
    (connectionItem 5 "c1" "42").userId = some "42" ∧
    (connectionItem 5 "c1" "42").ttl = some (calculateTTL 5) :=
  C4_idempotent_create 5 9 [] "c1" "42" "43" rfl

/-! ## Claim C9 -/

/-- C9 counterexample: under the spec-modelled retry middleware, a
persistently failing operation run with `maxAttempts = 3` is attempted
exactly 3 times, but only two backoff delays (100ms, 200ms) occur between
the three attempts — not the three delays (100ms, 200ms, 400ms) the claim
asserts. -/
theorem C9_retry_counterexample :
    retryOp alwaysFail 3 = (3, [100, 200], false) ∧
    (retryOp alwaysFail 3).2.1 ≠ [100, 200, 400] := by
  constructor
  · decide
  · decide

/-- C9 amended: every store operation runs under a bounded retry of at most
3 attempts (`maxAttempts = 3` in the client configuration); a persistently
failing operation is attempted exactly 3 times with exponential backoff
delays of 100ms and 200ms between consecutive attempts (two gaps between
three attempts), and each call is bounded by the configured 5000ms request
deadline. -/
theorem C9_retry_amended (op : Nat → Bool) (h : ∀ i, op i = false) :
    retryOp op 3 = (3, [100, 200], false) ∧
    (∀ g : Nat → Bool, (retryOp g 3).1 ≤ 3) ∧
    dynamoClientConfig.maxAttempts = 3 ∧
    dynamoClientConfig.requestTimeout = 5000 := by
  refine ⟨?_, ?_, rfl, rfl⟩
  · simp [retryOp, retryExec, h 1, h 2, h 3]
  · intro g
    simpa using retryExec_fst_le g 3 0

theorem C9_retry_amended_witness :
    retryOp alwaysFail 3 = (3, [100, 200], false) ∧
    (∀ g : Nat → Bool, (retryOp g 3).1 ≤ 3) ∧
    dynamoClientConfig.maxAttempts = 3 ∧
    dynamoClientConfig.requestTimeout = 5000 :=
  C9_retry_amended alwaysFail (fun _ => rfl)

/-! ## Claim C10 -/

/-- C10: the record written by `storeConnection` carries no `serviceType`
attribute, while `getActiveConnections` filters on
`serviceType = 'weather-updates' AND ttl > now`; hence a record created
through the public connect path is never returned by the active-connection
enumeration, even while its `ttl` lies in the future, and a `storeConnection`
call never changes the enumeration's output. -/
theorem C10_connect_records_invisible (nowMs nowS : Nat) (cid uid : String)
    (tbl : Registry) :
    (connectionItem nowMs cid uid).serviceType = none ∧
    connectionItem nowMs cid uid ∉ getActiveConnections nowS tbl ∧
    (∀ t2, storeConnection nowMs tbl cid uid = Except.ok t2 →
      getActiveConnections nowS t2 = getActiveConnections nowS tbl) := by
  refine ⟨rfl, ?_, ?_⟩
  · intro hmem
    simp [getActiveConnections, List.mem_filter, connectionItem] at hmem
  · intro t2 ht
    cases hcc : containsConn tbl cid with
    | true =>
      simp [storeConnection, putItemConditional, connectionItem, hcc] at ht
      simp [ht]
    | false =>
      simp [storeConnection, putItemConditional, connectionItem, hcc] at ht
      subst ht
      simp [getActiveConnections, List.filter_append, connectionItem]

theorem C10_connect_records_invisible_witness :
    getActiveConnections 10 tbl1 = getActiveConnections 10 [] ∧
    connectionItem 0 "c1" "42" ∉ getActiveConnections 10 tbl1 :=
  ⟨(C10_connect_records_invisible 0 10 "c1" "42" []).2.2 tbl1 rfl,
   (C10_connect_records_invisible 0 10 "c1" "42" tbl1).2.1⟩

/-! ## Claim C1 -/

/-- Per-item behaviour of the data processor's map callback: the output is
error-tagged exactly for the inputs `rowFails` discriminates, and a
non-failing input's output is populated with a `weather` object. -/
theorem processRow_error_eq (nowIso : String) (r : Row) :
    ((processRow nowIso r).error.isSome = rowFails r) ∧
    (rowFails r = false → (processRow nowIso r).weather.isSome = true) := by
  rcases hre : r.error with _ | s <;>
    rcases ht : r.temperature with _ | v <;>
      rcases hc : r.current with _ | cur <;>
        simp [processRow, rowFails, jsTruthyStr, hre, ht, hc] <;>
          by_cases hs : s = "" <;> simp_all

/-- Mapping a fallible function over a list fails as a whole as soon as it
fails on any member. -/
theorem mapM_error_of_mem {α β ε : Type} (f : α → Except ε β) :
    ∀ (l : List α) (a : α) (e : ε), a ∈ l → f a = Except.error e →
      ∃ e2, l.mapM f = Except.error e2
  | [], a, _, h, _ => absurd h (List.not_mem_nil a)
  | x :: xs, a, e, h, hf => by
    cases hx : f x with
    | error e3 => exact ⟨e3, by rw [List.mapM_cons, hx]; rfl⟩
    | ok b =>
      rcases List.mem_cons.mp h with h1 | h2
      · subst h1; rw [hf] at hx; simp at hx
      · rcases mapM_error_of_mem f xs a e h2 hf with ⟨e2, h2e⟩
        exact ⟨e2, by rw [List.mapM_cons, hx, h2e]; rfl⟩

/-- C1 counterexample: with a provider failing exactly for `locB` (and
succeeding for `locA` and `locC`), `getWeatherUpdates [locA, locB, locC]`
does not return a 3-element array with one error-tagged entry — the
per-location `.catch` rethrows, so the whole batch rejects with a single
batch-level exception. -/
theorem C1_batch_counterexample :
    getWeatherUpdates exProvider "t0" [locA, locB, locC]
      = Except.error "Failed to fetch weather data" ∧
    getWeatherForLocation exProvider "t0" locB
      = Except.error "Failed to fetch weather data" ∧
    (getWeatherForLocation exProvider "t0" locA).toOption.isSome = true ∧
    (getWeatherForLocation exProvider "t0" locC).toOption.isSome = true :=
  ⟨rfl, rfl, rfl, rfl⟩

/-- C1 amended: `processWeatherData` does isolate per-item failures — its
output has the input's length, in input order, with exactly the failing
rows error-tagged and every other entry populated with weather data — but
`getWeatherUpdates` does not: a single location for which the provider
fails makes the whole batch reject with a batch-level exception. -/
theorem C1_batch_isolation_amended (nowIso : String) (rows : List Row)
    (provider : String → Except PErr ApiResp) (locs : List Loc) (loc : Loc)
    (e : String) :
    (processWeatherData nowIso rows).length = rows.length ∧
    (∀ i (hi : i < (processWeatherData nowIso rows).length)
        (hr : i < rows.length),
      (((processWeatherData nowIso rows).get ⟨i, hi⟩).error.isSome
          = rowFails (rows.get ⟨i, hr⟩)) ∧
      (rowFails (rows.get ⟨i, hr⟩) = false →
        ((processWeatherData nowIso rows).get ⟨i, hi⟩).weather.isSome = true)) ∧
    (loc ∈ locs → getWeatherForLocation provider nowIso loc = Except.error e →
      ∃ e2, getWeatherUpdates provider nowIso locs = Except.error e2) := by
  refine ⟨by simp [processWeatherData], ?_, ?_⟩
  · intro i hi hr
    have hget : (processWeatherData nowIso rows).get ⟨i, hi⟩
        = processRow nowIso (rows.get ⟨i, hr⟩) := by
      simp [processWeatherData]
    rw [hget]
    exact ⟨(processRow_error_eq nowIso _).1, (processRow_error_eq nowIso _).2⟩
  · intro hmem herr
    have hne : locs.isEmpty = false := by
      cases locs with
      | nil => cases hmem
      | cons a as => rfl
    simpa [getWeatherUpdates, hne] using
      mapM_error_of_mem (getWeatherForLocation provider nowIso) locs loc e hmem herr

theorem C1_batch_isolation_amended_witness :
    (processWeatherData "t0" rowsEx).length = rowsEx.length ∧
    ((processWeatherData "t0" rowsEx).get ⟨1, by decide⟩).error.isSome
        = rowFails (rowsEx.get ⟨1, by decide⟩) ∧
    ((processWeatherData "t0" rowsEx).get ⟨0, by decide⟩).weather.isSome = true ∧
    (∃ e2, getWeatherUpdates exProvider "t0" [locA, locB, locC]
        = Except.error e2) := by
  have h := C1_batch_isolation_amended "t0" rowsEx exProvider [locA, locB, locC]
    locB "Failed to fetch weather data"
  exact ⟨h.1, (h.2.1 1 (by decide) (by decide)).1,
    (h.2.1 0 (by decide) (by decide)).2 (by decide),
    h.2.2 (by decide) rfl⟩

/-! ## Claim C6 -/

/-- C6 counterexample: with the cached snapshot for `locB` written at time
0 and the clock at 300000ms (the freshness window is 300000ms, so the
snapshot is expired) and a failing provider, `getCachedWeather` serves the
expired snapshot from the cache (tagged `isStale`) instead of never serving
it. -/
theorem C6_stale_served_counterexample :
    getCachedWeather pFail 300000 "t1" cacheB [locB] false
      = Except.ok ([CResult.success fmtB true], cacheB, 1) := rfl

/-- C6 amended: a snapshot within the 5-minute freshness window is served
from the cache with no provider request; once the window has elapsed a
fresh provider request is always issued — serving the fresh snapshot when
it succeeds — but when the fresh fetch fails the expired snapshot is still
served as a stale-tagged fallback (and when no cache entry exists at all,
failure produces an error entry). -/
theorem C6_cache_amended (provider : String → Except PErr ApiResp)
    (nowMs : Nat) (nowIso : String) (cache : Cache) (loc : Loc) (key : String)
    (entry : CacheEntry) (fresh : Formatted) (err : String)
    (hq : getLocationQuery loc = Except.ok key) :
    (cacheGet cache key = some entry → nowMs - entry.timestamp < CACHE_TTL →
      getCachedWeather provider nowMs nowIso cache [loc] false =
        Except.ok ([CResult.success entry.data false], cache, 0)) ∧
    (cacheGet cache key = some entry → ¬ nowMs - entry.timestamp < CACHE_TTL →
      getWeatherForLocation provider nowIso loc = Except.ok fresh →
      getCachedWeather provider nowMs nowIso cache [loc] false =
        Except.ok ([CResult.success fresh false],
          cacheSet cache key ⟨fresh, nowMs⟩, 1)) ∧
    (cacheGet cache key = some entry → ¬ nowMs - entry.timestamp < CACHE_TTL →
      getWeatherForLocation provider nowIso loc = Except.error err →
      getCachedWeather provider nowMs nowIso cache [loc] false =
        Except.ok ([CResult.success entry.data true], cache, 1)) ∧
    (cacheGet cache key = none →
      getWeatherForLocation provider nowIso loc = Except.ok fresh →
      getCachedWeather provider nowMs nowIso cache [loc] false =
        Except.ok ([CResult.success fresh false],
          cacheSet cache key ⟨fresh, nowMs⟩, 1)) ∧
    (cacheGet cache key = none →
      getWeatherForLocation provider nowIso loc = Except.error err →
      getCachedWeather provider nowMs nowIso cache [loc] false =
        Except.ok ([CResult.failure (loc.name.getD key) err nowIso], cache, 1)) := by
  refine ⟨?_, ?_, ?_, ?_, ?_⟩
  · intro h1 h2
    simp [getCachedWeather, hq, h1, h2]
  · intro h1 h2 h3
    simp [getCachedWeather, hq, h1, h2, h3]
  · intro h1 h2 h3
    simp [getCachedWeather, hq, h1, h2, h3]
  · intro h1 h3
    simp [getCachedWeather, hq, h1, h3]
  · intro h1 h3
    simp [getCachedWeather, hq, h1, h3]

theorem C6_cache_amended_witness :
    getCachedWeather pFail 1000 "t1" cacheB [locB] false =
      Except.ok ([CResult.success fmtB false], cacheB, 0) :=
  (C6_cache_amended pFail 1000 "t1" cacheB locB "Beta, BB" ⟨fmtB, 0⟩ fmtB "e"
    rfl).1 rfl (by decide)

/-! ## Claim C3 -/

/-- C3 counterexample: a `getWeather` event carrying an expired token is
answered with a 500 (the route's catch-all), not with the 401 the claim
asserts for every route; the registry is untouched. -/
theorem C3_auth_counterexample :
    handler env0 [] ⟨"getWeather", "c1", none, none,
        some (BodyV.msg { token := some Token.expired })⟩ =
      ⟨500, "Failed to retrieve weather data", []⟩ ∧
    (500 : Nat) ≠ 401 :=
  ⟨rfl, by decide⟩

/-- C3 amended: authorization always precedes registry mutation — a failed
token verification leaves the registry untouched on `$connect` (which
answers 401, never calling `storeConnection`), on `getWeather` (which
answers 500 from its catch-all, not 401) and on `$default` (500 from the
top-level catch, not 401), the latter two provided the best-effort error
push does not itself report the endpoint gone. -/
theorem C3_auth_before_mutation_amended (env : Env) (tbl : Registry)
    (cid : String) (tok : Option Token) (uid? : Option String)
    (bd : Option BodyV) (err : AuthErr) (m : Msg) (tk : Token) :
    (verifyToken env.jwtSecret tok = Except.error err →
      (handler env tbl ⟨"$connect", cid, tok, uid?, bd⟩).statusCode = 401 ∧
      (handler env tbl ⟨"$connect", cid, tok, uid?, bd⟩).registry = tbl) ∧
    (m.token = some tk → verifyToken env.jwtSecret m.token = Except.error err →
      env.push cid ≠ PushOut.gone →
      handler env tbl ⟨"getWeather", cid, none, none, some (BodyV.msg m)⟩ =
        ⟨500, "Failed to retrieve weather data", tbl⟩) ∧
    (verifyToken env.jwtSecret m.token = Except.error err →
      env.push cid ≠ PushOut.gone →
      handler env tbl ⟨"$default", cid, none, none, some (BodyV.msg m)⟩ =
        ⟨500, "Internal server error", tbl⟩) := by
  refine ⟨?_, ?_, ?_⟩
  · intro hv
    cases htok : tok with
    | none => simp [handler, handlerCore, connectRoute]
    | some t =>
      subst htok
      cases hu : jsTruthyStr uid? with
      | false => simp [handler, handlerCore, connectRoute, hu]
      | true => simp [handler, handlerCore, connectRoute, hu, hv]
  · intro hm hv hp
    rw [hm] at hv
    cases hpc : env.push cid with
    | gone => exact absurd hpc hp
    | delivered =>
      simp [handler, handlerCore, getWeatherRoute, parseBody, hm, hv,
        getWeatherCatch, sendMessageToClient, hpc]
    | fail =>
      simp [handler, handlerCore, getWeatherRoute, parseBody, hm, hv,
        getWeatherCatch, sendMessageToClient, hpc]
  · intro hv hp
    cases hpc : env.push cid with
    | gone => exact absurd hpc hp
    | delivered =>
      simp [handler, handlerCore, defaultRoute, parseBody, hv,
        sendMessageToClient, hpc]
    | fail =>
      simp [handler, handlerCore, defaultRoute, parseBody, hv,
        sendMessageToClient, hpc]

theorem C3_auth_before_mutation_amended_witness :
    (handler env0 [] ⟨"$connect", "c1", some Token.badSignature,
        some "42", none⟩).statusCode = 401 ∧
    (handler env0 [] ⟨"$connect", "c1", some Token.badSignature,
        some "42", none⟩).registry = [] :=
  (C3_auth_before_mutation_amended env0 [] "c1" (some Token.badSignature)
    (some "42") none AuthErr.invalidSignature {} Token.expired).1 rfl

/-! ## Claim C5 -/

/-- C5 counterexample: a `$default` event with an unparseable body is
answered with a 500 from the top-level catch — not the 400 validation
error the claim asserts; the registry is untouched. -/
theorem C5_validation_counterexample :
    handler env0 [] ⟨"$default", "c1", none, none, some BodyV.malformed⟩ =
      ⟨500, "Internal server error", []⟩ ∧
    (500 : Nat) ≠ 400 :=
  ⟨rfl, by decide⟩

/-- C5 amended: an unrecognized route identifier and an unknown `$default`
action yield a 400 with the registry untouched, but a malformed message
body on `getWeather` or `$default` propagates to the top-level catch and
yields a 500, not a 400 (still with no registry mutation, provided the
best-effort error push does not report the endpoint gone). -/
theorem C5_validation_amended (env : Env) (tbl : Registry) (cid rk : String)
    (qt : Option Token) (qu : Option String) (bd : Option BodyV) (m : Msg)
    (claims : Claims) (act : String) :
    (rk ≠ "$connect" → rk ≠ "$disconnect" → rk ≠ "getWeather" →
     rk ≠ "locationUpdate" → rk ≠ "$default" →
      handler env tbl ⟨rk, cid, qt, qu, bd⟩ =
        ⟨400, "Unknown route", tbl⟩) ∧
    (parseBody bd = Except.error () → env.push cid ≠ PushOut.gone →
      handler env tbl ⟨"$default", cid, none, none, bd⟩ =
        ⟨500, "Internal server error", tbl⟩) ∧
    (parseBody bd = Except.error () → env.push cid ≠ PushOut.gone →
      handler env tbl ⟨"getWeather", cid, none, none, bd⟩ =
        ⟨500, "Internal server error", tbl⟩) ∧
    (verifyToken env.jwtSecret m.token = Except.ok claims → m.action = some act →
      act ≠ "subscribe" → act ≠ "unsubscribe" → act ≠ "logout" →
      handler env tbl ⟨"$default", cid, none, none, some (BodyV.msg m)⟩ =
        ⟨400, "Unknown action", tbl⟩) := by
  refine ⟨?_, ?_, ?_, ?_⟩
  · intro h1 h2 h3 h4 h5
    have hc : handlerCore env tbl ⟨rk, cid, qt, qu, bd⟩ =
        Except.ok (400, "Unknown route", tbl) := by
      unfold handlerCore
      split <;> simp_all
    simp [handler, hc]
  · intro hb hp
    cases hpc : env.push cid with
    | gone => exact absurd hpc hp
    | delivered =>
      simp [handler, handlerCore, defaultRoute, hb, sendMessageToClient, hpc]
    | fail =>
      simp [handler, handlerCore, defaultRoute, hb, sendMessageToClient, hpc]
  · intro hb hp
    cases hpc : env.push cid with
    | gone => exact absurd hpc hp
    | delivered =>
      simp [handler, handlerCore, getWeatherRoute, hb, sendMessageToClient, hpc]
    | fail =>
      simp [handler, handlerCore, getWeatherRoute, hb, sendMessageToClient, hpc]
  · intro hv ha h1 h2 h3
    have hc : handlerCore env tbl ⟨"$default", cid, none, none,
        some (BodyV.msg m)⟩ = Except.ok (400, "Unknown action", tbl) := by
      unfold handlerCore defaultRoute
      simp only [parseBody, hv, ha]
      split <;> simp_all
    simp [handler, hc]

theorem C5_validation_amended_witness :
    handler env0 [] ⟨"bogusRoute", "c1", none, none, none⟩ =
      ⟨400, "Unknown route", []⟩ :=
  (C5_validation_amended env0 [] "c1" "bogusRoute" none none none {}
    ⟨"42", "user42"⟩ "noop").1 (by decide) (by decide) (by decide) (by decide)
    (by decide)

/-! ## Claim C7 -/

/-- Every record of the updated table that carries the target key has had
its `locationIds` replaced by the new value, its TTL refreshed and its
status set, and the updated table does contain the key. -/
theorem updateConnectionLocations_spec (nowMs : Nat) (tbl : Registry)
    (cid : String) (v : LocVal) :
    (∀ r ∈ updateConnectionLocations nowMs tbl cid v, r.connectionId = cid →
      r.locationIds = some v ∧ r.ttl = some (calculateTTL nowMs) ∧
      r.status = some "CONNECTED") ∧
    containsConn (updateConnectionLocations nowMs tbl cid v) cid = true := by
  unfold updateConnectionLocations
  cases hcc : containsConn tbl cid with
  | true =>
    constructor
    · intro r hr hrc
      rcases List.mem_map.mp hr with ⟨r0, hr0, heq⟩
      by_cases hb : r0.connectionId == cid
      · rw [← heq]
        simp [hb]
      · rw [← heq] at hrc
        simp [hb] at hrc
        exact absurd (by simp [hrc]) hb
    · simp only [containsConn, List.any_eq_true] at hcc ⊢
      rcases hcc with ⟨r0, hr0, hbeq⟩
      exact ⟨_, List.mem_map_of_mem _ hr0, by simp [hbeq]⟩
  | false =>
    constructor
    · intro r hr hrc
      rcases List.mem_append.mp hr with h | h
      · exfalso
        have : containsConn tbl cid = true := by
          simp [containsConn, List.any_eq_true]
          exact ⟨r, h, by simp [hrc]⟩
        simp [this] at hcc
      · simp at h
        subst h
        exact ⟨rfl, rfl, rfl⟩
    · simp [containsConn]

/-- C7: handling a subscribe message replaces the connection's full
subscription set with exactly the requested location (regardless of prior
subscriptions), and the same registry update refreshes the record's TTL and
sets its status to CONNECTED; the handler answers 200 after one
`weatherUpdate` push. -/
theorem C7_subscription_replaces (env : Env) (tbl : Registry)
    (cid lid : String) (m : Msg) (claims : Claims)
    (hv : verifyToken env.jwtSecret m.token = Except.ok claims)
    (ha : m.action = some "subscribe")
    (hl : m.locationId = some lid) (hne : lid ≠ "")
    (hp : env.push cid = PushOut.delivered) :
    handler env tbl ⟨"$default", cid, none, none, some (BodyV.msg m)⟩ =
      ⟨200, "Subscribed successfully",
        updateConnectionLocations env.nowMs tbl cid (LocVal.str lid)⟩ ∧
    containsConn (updateConnectionLocations env.nowMs tbl cid (LocVal.str lid))
      cid = true ∧
    (∀ r ∈ updateConnectionLocations env.nowMs tbl cid (LocVal.str lid),
      r.connectionId = cid →
        r.locationIds = some (LocVal.str lid) ∧
        subsOf ((r.locationIds).getD LocVal.null) = [lid] ∧
        r.ttl = some (calculateTTL env.nowMs) ∧
        r.status = some "CONNECTED") := by
  refine ⟨?_, (updateConnectionLocations_spec env.nowMs tbl cid (LocVal.str lid)).2, ?_⟩
  · simp [handler, handlerCore, defaultRoute, parseBody, hv, ha, hl,
      jsTruthyStr, hne, sendMessageToClient, hp]
  · intro r hr hrc
    have h := (updateConnectionLocations_spec env.nowMs tbl cid
      (LocVal.str lid)).1 r hr hrc
    exact ⟨h.1, by rw [h.1]; rfl, h.2.1, h.2.2⟩

theorem C7_subscription_replaces_witness :
    handler env0 [recOld] ⟨"$default", "c1", none, none,
        some (BodyV.msg mSub)⟩ =
      ⟨200, "Subscribed successfully",
        updateConnectionLocations env0.nowMs [recOld] "c1"
          (LocVal.str "loc-7")⟩ ∧
    containsConn (updateConnectionLocations env0.nowMs [recOld] "c1"
      (LocVal.str "loc-7")) "c1" = true ∧
    (∀ r ∈ updateConnectionLocations env0.nowMs [recOld] "c1"
        (LocVal.str "loc-7"),
      r.connectionId = "c1" →
        r.locationIds = some (LocVal.str "loc-7") ∧
        subsOf ((r.locationIds).getD LocVal.null) = ["loc-7"] ∧
        r.ttl = some (calculateTTL env0.nowMs) ∧
        r.status = some "CONNECTED") :=
  C7_subscription_replaces env0 [recOld] "c1" "loc-7" mSub
    ⟨"42", "user42"⟩ rfl rfl rfl (by decide) rfl

/-! ## Claim C8 -/

/-- C8 counterexample: a `$connect` event carrying a token that verifies
successfully but no `userId` query parameter is rejected with 401 and no
record is created — the `userId` parameter is required, not optional. -/
theorem C8_userid_required_counterexample :
    handler env0 [] ⟨"$connect", "c1", some (Token.valid "42" "user42"),
        none, none⟩ =
      ⟨401, "Authorization token and userId required", []⟩ ∧
    verifyToken env0.jwtSecret (some (Token.valid "42" "user42")) =
      Except.ok { userId := "42", username := "user42" } :=
  ⟨rfl, rfl⟩

/-- C8 amended: the `userId` connect-time query parameter is required, not
optional — a valid-token `$connect` without it is rejected with 401 and no
registry record; when supplied it is cross-checked against the token's
`userId` and `username` claims, a mismatch with both yields 401 with no
record, and a match is accepted (200) with the connection stored. -/
theorem C8_userid_amended (env : Env) (tbl : Registry) (cid : String)
    (tok : Option Token) (bd : Option BodyV) (claims : Claims)
    (provided : String) :
    (handler env tbl ⟨"$connect", cid, tok, none, bd⟩ =
      ⟨401, "Authorization token and userId required", tbl⟩) ∧
    (tok.isSome = true → provided ≠ "" →
      verifyToken env.jwtSecret tok = Except.ok claims →
      claims.userId ≠ provided → claims.username ≠ provided →
      handler env tbl ⟨"$connect", cid, tok, some provided, bd⟩ =
        ⟨401, "Invalid user identification", tbl⟩) ∧
    (tok.isSome = true → claims.userId ≠ "" →
      verifyToken env.jwtSecret tok = Except.ok claims →
      env.push cid = PushOut.delivered →
      (handler env tbl
        ⟨"$connect", cid, tok, some claims.userId, bd⟩).statusCode = 200 ∧
      containsConn (handler env tbl
        ⟨"$connect", cid, tok, some claims.userId, bd⟩).registry cid = true) := by
  refine ⟨?_, ?_, ?_⟩
  · simp [handler, handlerCore, connectRoute, jsTruthyStr]
  · intro ht hpne hv h1 h2
    simp [handler, handlerCore, connectRoute, ht, jsTruthyStr, hpne, hv, h1, h2]
  · intro ht hune hv hp
    cases hcc : containsConn tbl cid with
    | true =>
      by_cases hl : (env.db claims.userId).length > 0 <;>
        simp [handler, handlerCore, connectRoute, ht, jsTruthyStr, hune, hv,
          storeConnection, putItemConditional, connectionItem, hcc, hl,
          sendMessageToClient, hp]
    | false =>
      have hin := containsConn_append_item tbl env.nowMs cid claims.userId
      by_cases hl : (env.db claims.userId).length > 0 <;>
        simp [handler, handlerCore, connectRoute, ht, jsTruthyStr, hune, hv,
          storeConnection, putItemConditional, connectionItem, hcc, hl,
          sendMessageToClient, hp] <;>
        simpa [connectionItem] using hin

theorem C8_userid_amended_witness :
    handler env0 [] ⟨"$connect", "c1", some (Token.valid "42" "user42"),
        none, none⟩ =
      ⟨401, "Authorization token and userId required", []⟩ :=
  (C8_userid_amended env0 [] "c1" (some (Token.valid "42" "user42")) none
    ⟨"42", "user42"⟩ "99").1

end WeatherWs
